import Mathlib

/-!
# clipwebm::VideoClip — decode / restart / seek state machine

Shallow embedding of `plugins/clipwebm/src/VideoClip.cpp`.

* The clip object is a record; every member function is a pure function from
  the clip (and the answers of the external collaborators during the call) to
  the new clip, the value returned and the ordered list of external calls made.
* The demuxer (`webm_*`) and the block decoder (`vpx_codec_*`) are external:
  their answers during one `decodeNextFrame` call are the fields of `DecodeResp`.
* `float` arithmetic is kept abstract (`FloatOps`): a timestamp is the term
  `div (ofInt n) fps`, whatever rounding the platform applies to it.
* The declarations of `VideoClip.h` are not part of this translation unit.
  The one place where the declared integer type changes a result for ordinary
  values is `lastDecodedFrameNumber`, which receives `-1` (line 107) and is
  compared against `(unsigned long)numFrames` (line 83); its signedness and the
  width of `unsigned long` are the parameters `Decls`. The spec's data model has
  it as a signed counter that `_restart` resets below 0 (`signedLast`).
  `frameNumber` starts at 0 and is only incremented or reset to 0; it is a
  natural number here and the model covers runs that stay below the maximum
  of its declared type.
-/

namespace clipwebm

/-- The two `float` operations the clip uses: conversion of an integer and division. -/
structure FloatOps (F : Type) where
  ofInt : Int → F
  div : F → F → F

/-- Exact rational arithmetic, the drift-free reading of the `float` operations. -/
def ratOps : FloatOps ℚ :=
  ⟨fun n => (n : ℚ), fun a b => a / b⟩

/-- What `VideoClip.h` declares and this file does not show: the width of
`unsigned long` (32 or 64 on the supported platforms) and whether
`lastDecodedFrameNumber` is the `unsigned long` that line 83 casts `numFrames` to
(`true`) or a signed integer wide enough for an `int` (`false`). -/
structure Decls where
  ulongBits : Nat
  lastUnsigned : Bool
deriving DecidableEq

/-- Conversion `(unsigned long)v`. -/
def Decls.toULong (d : Decls) (v : Int) : Int :=
  v % 2 ^ d.ulongBits

/-- The value `lastDecodedFrameNumber` holds after `lastDecodedFrameNumber = v`. -/
def Decls.storeLast (d : Decls) (v : Int) : Int :=
  if d.lastUnsigned then d.toULong v else v

/-- Modelled from the spec: the playback timer (`theoraplayer/Timer.h`, not in this
translation unit) "tracks paused/playing state and current time" and offers
`isPaused()`, `pause()`, `play()`, `seek(time)`. -/
structure Timer (F : Type) where
  paused : Bool
  time : F
deriving DecidableEq

/-- Modelled from the spec: `Timer::isPaused()`. -/
def Timer.isPaused {F : Type} (t : Timer F) : Bool :=
  t.paused

/-- Modelled from the spec: `Timer::pause()`. -/
def Timer.pause {F : Type} (t : Timer F) : Timer F :=
  { t with paused := true }

/-- Modelled from the spec: `Timer::play()`. -/
def Timer.play {F : Type} (t : Timer F) : Timer F :=
  { t with paused := false }

/-- Modelled from the spec: `Timer::seek(time)` moves the current time only. -/
def Timer.seek {F : Type} (t : Timer F) (time : F) : Timer F :=
  { t with time := time }

/-- A decoded `vpx_image_t`: the three plane pointers (as abstract handles) and strides. -/
structure VpxImage where
  planes0 : Nat
  planes1 : Nat
  planes2 : Nat
  stride0 : Int
  stride1 : Int
  stride2 : Int
deriving DecidableEq

/-- The `PixelTransform` handed to `VideoFrame::decode`; fields not listed stay zeroed. -/
structure PixelTransform where
  y : Nat
  yStride : Int
  u : Nat
  uStride : Int
  v : Nat
  vStride : Int
deriving DecidableEq

/-- Lines 87-91: `memset(&t, 0, ...)` followed by the six assignments from `this->frame`. -/
def PixelTransform.ofImage (img : VpxImage) : PixelTransform :=
  { y := img.planes0, yStride := img.stride0,
    u := img.planes1, uStride := img.stride1,
    v := img.planes2, vStride := img.stride2 }

/-- Modelled from the spec: a slot of the frame cache is free, borrowed by the
orchestrator, or marked ready for the consumer. -/
inductive SlotStatus where
  | empty
  | claimed
  | ready
deriving DecidableEq

/-- Modelled from the spec: an output frame slot (`theoraplayer/VideoFrame.h`), with
"slot fields {timeToDisplay, iteration, frameIndex, pixelBuffer}" and its status. -/
structure VideoFrame (F : Type) where
  timeToDisplay : F
  iteration : Int
  frameNumber : Nat
  pixels : Option PixelTransform
  status : SlotStatus
deriving DecidableEq

/-- Modelled from the spec: `VideoFrame::decode(&t)`, the pixel conversion followed by the
"markDecoded() completion call". -/
def VideoFrame.decode {F : Type} (f : VideoFrame F) (t : PixelTransform) : VideoFrame F :=
  { f with pixels := some t, status := SlotStatus.ready }

/-- Index of the first free slot of the pool. -/
def findEmpty {F : Type} : List (VideoFrame F) → Option Nat
  | [] => none
  | f :: fs => if f.status = SlotStatus.empty then some 0 else (findEmpty fs).map (· + 1)

/-- Apply `g` to slot `i` of the pool, leaving every other slot as it is. -/
def modifySlot {F : Type} (g : VideoFrame F → VideoFrame F) : List (VideoFrame F) → Nat → List (VideoFrame F)
  | [], _ => []
  | f :: fs, 0 => g f :: fs
  | f :: fs, i + 1 => f :: modifySlot g fs i

/-- Modelled from the spec: `FrameQueue::requestEmptyFrame() -> slot or none`; the slot
handed out is borrowed until it is marked ready. -/
def requestEmptyFrame {F : Type} (q : List (VideoFrame F)) : Option (Nat × List (VideoFrame F)) :=
  match findEmpty q with
  | none => none
  | some i => some (i, modifySlot (fun f => { f with status := SlotStatus.claimed }) q i)

/-- Modelled from the spec: `resetQueue()` evicts every in-flight frame. -/
def resetQueue {F : Type} (q : List (VideoFrame F)) : List (VideoFrame F) :=
  q.map (fun f => { f with status := SlotStatus.empty })

/-- Slots currently marked ready. -/
def readySlots {F : Type} (q : List (VideoFrame F)) : List Bool :=
  q.map (fun f => decide (f.status = SlotStatus.ready))

/-- Calls made on the external collaborators, and log lines, in program order. -/
inductive Event (F : Type) where
  | requestEmptyFrame
  | webm_read_frame
  | vpx_codec_decode
  | vpx_codec_error_detail
  | log (msg : String)
  | vpx_codec_get_frame
  | frameDecode (slot : Nat) (t : PixelTransform)
  | timerIsPaused
  | timerPause
  | timerPlay
  | timerSeek (time : F)
  | webm_rewind
  | resetFrameQueue
deriving DecidableEq

/-- The members of the clip that `decodeNextFrame`, `_restart`, `doSeek` and the
constructor read or write. `frameQueue` is the pool of a loaded clip. -/
structure VideoClip (F : Type) where
  frameQueue : List (VideoFrame F)
  timer : Timer F
  frame : Option VpxImage
  frameNumber : Nat
  lastDecodedFrameNumber : Int
  seekFrame : Int
  numFrames : Int
  fps : F
  iteration : Int
  endOfFile : Bool
  restarted : Bool
deriving DecidableEq

/-- Answers of the demuxer and the decoder during one `decodeNextFrame` call.
`readFrame`: return of `webm_read_frame` (0 = a packet was read).
`decode`: return of `vpx_codec_decode` (0 = no error).
`detail`: return of `vpx_codec_error_detail` (`none` = NULL).
`image`: return of `vpx_codec_get_frame` (`none` = NULL). -/
structure DecodeResp where
  readFrame : Int
  decode : Int
  detail : Option String
  image : Option VpxImage
deriving DecidableEq

/-- Result of a member function: returned value, clip afterwards, external calls made. -/
structure Outcome (F : Type) (R : Type) where
  ret : R
  clip : VideoClip F
  trace : List (Event F)

/-- Lines 26-40: `VideoClip::create`, that is `new VideoClip(...)`: the derived
constructor applied to the object the base-class constructor left. -/
def VideoClip.create {F : Type} (base : VideoClip F) : VideoClip F :=
  { base with seekFrame := 0, frameNumber := 0 }

/-- Lines 67-74: the calls and log lines of the decode step. -/
def decodeStepTrace {F : Type} (r : DecodeResp) : List (Event F) :=
  Event.vpx_codec_decode ::
    (if r.decode ≠ 0 then
      Event.vpx_codec_error_detail ::
        (match r.detail with
          | some detail => [Event.log ("Additional information: " ++ detail)]
          | none => [])
    else [])

/-- Lines 52-96 with the final value of the local `shouldRestart` (second component;
`false` when the function returns before the local is declared). -/
def VideoClip.decodeNextFrameLocals {F : Type} (d : Decls) (O : FloatOps F)
    (c : VideoClip F) (r : DecodeResp) : Outcome F Bool × Bool :=
  match requestEmptyFrame c.frameQueue with
  | none => (⟨false, c, [Event.requestEmptyFrame]⟩, false)
  | some (slot, q) =>
    let c1 := { c with frameQueue := q }
    if r.readFrame = 0 then
      let tr := [Event.requestEmptyFrame, Event.webm_read_frame] ++ decodeStepTrace r
        ++ [Event.vpx_codec_get_frame]
      match r.image with
      | some img =>
        let q1 := modifySlot (fun f => { f with
            timeToDisplay := O.div (O.ofInt c.frameNumber) c.fps,
            iteration := c.iteration,
            frameNumber := c.frameNumber }) q slot
        let frameNumber := c.frameNumber + 1
        let last := d.storeLast frameNumber
        let shouldRestart := decide (d.toULong last ≥ d.toULong c.numFrames)
        let t := PixelTransform.ofImage img
        let q2 := modifySlot (fun f => f.decode t) q1 slot
        (⟨true,
          { c1 with frame := some img, frameQueue := q2, frameNumber := frameNumber,
                    lastDecodedFrameNumber := last },
          tr ++ [Event.frameDecode slot t]⟩, shouldRestart)
      | none => (⟨true, c1, tr⟩, false)
    else
      (⟨true, c1, [Event.requestEmptyFrame, Event.webm_read_frame]⟩, false)

/-- Lines 52-96: `bool VideoClip::decodeNextFrame()`. The local `shouldRestart` is
not part of what the function returns or stores. -/
def VideoClip.decodeNextFrame {F : Type} (d : Decls) (O : FloatOps F)
    (c : VideoClip F) (r : DecodeResp) : Outcome F Bool :=
  (c.decodeNextFrameLocals d O r).1

/-- Lines 100-104 of `_restart`: read the paused state and pause a running timer. -/
def VideoClip.restartPause {F : Type} (c : VideoClip F) : Bool × Outcome F Unit :=
  let paused := c.timer.isPaused
  if !paused then
    (paused, ⟨(), { c with timer := c.timer.pause }, [Event.timerIsPaused, Event.timerPause]⟩)
  else
    (paused, ⟨(), c, [Event.timerIsPaused]⟩)

/-- Lines 105-110 of `_restart`: rewind the demuxer and reset the counters and flags. -/
def VideoClip.restartReset {F : Type} (d : Decls) (c : VideoClip F) : Outcome F Unit :=
  ⟨(), { c with frameNumber := 0, lastDecodedFrameNumber := d.storeLast (-1), seekFrame := 0,
                endOfFile := false, restarted := true },
    [Event.webm_rewind]⟩

/-- Lines 111-114 of `_restart`: restart a timer that was running at entry. -/
def VideoClip.restartResume {F : Type} (paused : Bool) (c : VideoClip F) : Outcome F Unit :=
  if !paused then ⟨(), { c with timer := c.timer.play }, [Event.timerPlay]⟩ else ⟨(), c, []⟩

/-- Lines 98-115: `void VideoClip::_restart()`. -/
def VideoClip._restart {F : Type} (d : Decls) (c : VideoClip F) : Outcome F Unit :=
  let a := c.restartPause
  let b := a.2.clip.restartReset d
  let e := b.clip.restartResume a.1
  ⟨(), e.clip, a.2.trace ++ b.trace ++ e.trace⟩

/-- Modelled from the spec: `VideoClip::resetFrameQueue()` of the base class, which
"clear/reset[s] the frame cache's in-flight frames". -/
def VideoClip.resetFrameQueue {F : Type} (c : VideoClip F) : VideoClip F :=
  { c with frameQueue := resetQueue c.frameQueue }

/-- Lines 174-193: `void VideoClip::doSeek()`. -/
def VideoClip.doSeek {F : Type} (d : Decls) (O : FloatOps F) (c : VideoClip F) : Outcome F Unit :=
  let time := O.div (O.ofInt c.seekFrame) c.fps
  let c1 := { c with timer := c.timer.seek time }
  let paused := c1.timer.isPaused
  let c2 := if !paused then { c1 with timer := c1.timer.pause } else c1
  let c3 := c2.resetFrameQueue
  let c4 := { c3 with lastDecodedFrameNumber := d.storeLast c.seekFrame }
  let c5 := if !paused then { c4 with timer := c4.timer.play } else c4
  ⟨(), { c5 with seekFrame := -1 },
    [Event.timerSeek time, Event.timerIsPaused] ++ (if !paused then [Event.timerPause] else [])
      ++ [Event.resetFrameQueue] ++ (if !paused then [Event.timerPlay] else [])⟩

/-! ## Sequences of calls -/

/-- The calls of a run that contains no `_restart`. -/
inductive Call where
  | decodeNextFrame (r : DecodeResp)
  | doSeek
deriving DecidableEq

/-- The clip after one call of the run. -/
def VideoClip.call {F : Type} (d : Decls) (O : FloatOps F) (c : VideoClip F) :
    Call → VideoClip F
  | Call.decodeNextFrame r => (c.decodeNextFrame d O r).clip
  | Call.doSeek => (c.doSeek d O).clip

/-- The clip after the calls of the run, in order. -/
def VideoClip.run {F : Type} (d : Decls) (O : FloatOps F) :
    VideoClip F → List Call → VideoClip F
  | c, [] => c
  | c, k :: ks => VideoClip.run d O (c.call d O k) ks

/-- Values of `lastDecodedFrameNumber` before the first call and after each call. -/
def VideoClip.lastDecodedHistory {F : Type} (d : Decls) (O : FloatOps F) :
    VideoClip F → List Call → List Int
  | c, [] => [c.lastDecodedFrameNumber]
  | c, k :: ks => c.lastDecodedFrameNumber :: VideoClip.lastDecodedHistory d O (c.call d O k) ks

/-- Every value of the list is at least the value before it. -/
def stepwiseLe : List Int → Bool
  | a :: b :: rest => decide (a ≤ b) && stepwiseLe (b :: rest)
  | _ => true

/-! ## Concrete clips and collaborator answers -/

/-- LP64 platform with `lastDecodedFrameNumber` declared `unsigned long`. -/
def lp64 : Decls :=
  ⟨64, true⟩

/-- Same platform with `lastDecodedFrameNumber` declared as a signed integer. -/
def lp64Signed : Decls :=
  ⟨64, false⟩

/-- A free slot. -/
def freeSlot : VideoFrame ℚ :=
  ⟨0, 0, 0, none, SlotStatus.empty⟩

/-- A slot already marked ready. -/
def readySlot : VideoFrame ℚ :=
  ⟨0, 0, 0, none, SlotStatus.ready⟩

/-- A decoded 640x480 4:2:0 picture. -/
def demoImage : VpxImage :=
  ⟨1, 2, 3, 640, 320, 320⟩

/-- A loaded 30 fps clip with the given pool, timer state and counters. -/
def demoClip (q : List (VideoFrame ℚ)) (paused : Bool) (frameNumber : Nat)
    (last seek numFrames : Int) : VideoClip ℚ :=
  { frameQueue := q, timer := ⟨paused, 0⟩, frame := none, frameNumber := frameNumber,
    lastDecodedFrameNumber := last, seekFrame := seek, numFrames := numFrames, fps := 30,
    iteration := 0, endOfFile := false, restarted := false }

/-- The packet is read, decoded without error, and an image comes out. -/
def respImage : DecodeResp :=
  ⟨0, 0, none, some demoImage⟩

/-- The packet read fails (end of stream). -/
def respReadFails : DecodeResp :=
  ⟨1, 0, none, none⟩

/-- The decode step reports an error without detail and no image comes out. -/
def respErrorNoImage : DecodeResp :=
  ⟨0, 1, none, none⟩

/-- The decode step reports an error without detail and the output iterator still
yields an image. -/
def respErrorImage : DecodeResp :=
  ⟨0, 1, none, some demoImage⟩

/-- A constructed and loaded 2-frame, 30 fps clip with a pool of four free slots. -/
def twoFrameClip : VideoClip ℚ :=
  VideoClip.create (demoClip [freeSlot, freeSlot, freeSlot, freeSlot] false 0 0 0 2)

/-- A 90-frame, 30 fps clip about to decode its last frame (index 89). -/
def lastFrameClip : VideoClip ℚ :=
  demoClip [freeSlot, freeSlot] false 89 89 0 90

/-- A playing 90-frame, 30 fps clip at frame 10 with a pending seek to frame 45. -/
def seekClip : VideoClip ℚ :=
  demoClip [readySlot, freeSlot] false 10 10 45 90

/-! ## Basic facts about the slot pool -/

theorem getElem?_modifySlot {F : Type} (g : VideoFrame F → VideoFrame F)
    (q : List (VideoFrame F)) (i j : Nat) :
    (modifySlot g q i)[j]? = if j = i then (q[j]?).map g else q[j]? := by
  induction q generalizing i j with
  | nil => cases i <;> simp [modifySlot]
  | cons f fs ih =>
    cases i with
    | zero =>
      cases j with
      | zero => simp [modifySlot]
      | succ j => simp [modifySlot]
    | succ i =>
      cases j with
      | zero => simp [modifySlot]
      | succ j => simp [modifySlot, ih]

theorem length_modifySlot {F : Type} (g : VideoFrame F → VideoFrame F)
    (q : List (VideoFrame F)) (i : Nat) : (modifySlot g q i).length = q.length := by
  induction q generalizing i with
  | nil => cases i <;> simp [modifySlot]
  | cons f fs ih => cases i <;> simp [modifySlot, ih]

theorem findEmpty_some {F : Type} (q : List (VideoFrame F)) (i : Nat)
    (h : findEmpty q = some i) : ∃ f, q[i]? = some f ∧ f.status = SlotStatus.empty := by
  induction q generalizing i with
  | nil => simp [findEmpty] at h
  | cons f fs ih =>
    by_cases hf : f.status = SlotStatus.empty
    · simp [findEmpty, hf] at h
      subst h
      exact ⟨f, by simp, hf⟩
    · simp [findEmpty, hf] at h
      obtain ⟨k, hk, rfl⟩ := h
      obtain ⟨f2, h1, h2⟩ := ih k hk
      exact ⟨f2, by simpa using h1, h2⟩

theorem requestEmptyFrame_some {F : Type} (q q1 : List (VideoFrame F)) (slot : Nat)
    (h : requestEmptyFrame q = some (slot, q1)) :
    findEmpty q = some slot ∧
      q1 = modifySlot (fun f => { f with status := SlotStatus.claimed }) q slot := by
  unfold requestEmptyFrame at h
  cases hq : findEmpty q with
  | none => simp [hq] at h
  | some i =>
    simp [hq] at h
    obtain ⟨rfl, rfl⟩ := h
    exact ⟨rfl, rfl⟩

theorem readySlots_modifySlot {F : Type} (g : VideoFrame F → VideoFrame F)
    (q : List (VideoFrame F)) (i : Nat)
    (hg : ∀ f, q[i]? = some f →
      ((g f).status = SlotStatus.ready ↔ f.status = SlotStatus.ready)) :
    readySlots (modifySlot g q i) = readySlots q := by
  induction q generalizing i with
  | nil => cases i <;> simp [modifySlot]
  | cons f fs ih =>
    cases i with
    | zero =>
      have := hg f (by simp)
      simp [modifySlot, readySlots, this]
    | succ i =>
      have h2 := ih i (fun f2 hf2 => hg f2 (by simpa using hf2))
      simp only [readySlots] at h2
      simp [modifySlot, readySlots, h2]

theorem readySlots_claim {F : Type} (q q1 : List (VideoFrame F)) (slot : Nat)
    (h : requestEmptyFrame q = some (slot, q1)) : readySlots q1 = readySlots q := by
  obtain ⟨h1, rfl⟩ := requestEmptyFrame_some q q1 slot h
  obtain ⟨f0, hf0, hs0⟩ := findEmpty_some q slot h1
  apply readySlots_modifySlot
  intro f hf
  rw [hf0] at hf
  cases hf
  simp [hs0]

/-! ## decodeNextFrame -/

/-- C1: when `requestEmptyFrame` returns no slot, `decodeNextFrame` returns false, leaves
the clip as it was (in particular `frameNumber`, `lastDecodedFrameNumber` and `seekFrame`),
and its only external call is the slot request: no packet is read and the decoder is
not called. -/
theorem decodeNextFrame_no_slot {F : Type} (d : Decls) (O : FloatOps F) (c : VideoClip F)
    (r : DecodeResp) (h : requestEmptyFrame c.frameQueue = none) :
    (c.decodeNextFrame d O r).ret = false ∧
    (c.decodeNextFrame d O r).clip = c ∧
    (c.decodeNextFrame d O r).clip.frameNumber = c.frameNumber ∧
    (c.decodeNextFrame d O r).clip.lastDecodedFrameNumber = c.lastDecodedFrameNumber ∧
    (c.decodeNextFrame d O r).clip.seekFrame = c.seekFrame ∧
    (c.decodeNextFrame d O r).trace = [Event.requestEmptyFrame] ∧
    Event.webm_read_frame ∉ (c.decodeNextFrame d O r).trace ∧
    Event.vpx_codec_decode ∉ (c.decodeNextFrame d O r).trace ∧
    Event.vpx_codec_get_frame ∉ (c.decodeNextFrame d O r).trace := by
  simp [VideoClip.decodeNextFrame, VideoClip.decodeNextFrameLocals, h]

/-- Witness for C1: a clip whose two slots are both ready has no free slot. -/
theorem decodeNextFrame_no_slot_witness :
    requestEmptyFrame (demoClip [readySlot, readySlot] false 5 5 0 90).frameQueue = none ∧
    ((demoClip [readySlot, readySlot] false 5 5 0 90).decodeNextFrame lp64 ratOps respImage).ret
      = false ∧
    ((demoClip [readySlot, readySlot] false 5 5 0 90).decodeNextFrame lp64 ratOps respImage).clip
      = demoClip [readySlot, readySlot] false 5 5 0 90 :=
  ⟨by decide,
   (decodeNextFrame_no_slot lp64 ratOps (demoClip [readySlot, readySlot] false 5 5 0 90)
      respImage (by decide)).1,
   (decodeNextFrame_no_slot lp64 ratOps (demoClip [readySlot, readySlot] false 5 5 0 90)
      respImage (by decide)).2.1⟩

/-- C2: for every n < numFrames, a `decodeNextFrame` call made with frameNumber = n that
obtains a slot, reads a packet and gets an image stamps that slot with
timeToDisplay = n / fps (one division of the converted counter, nothing accumulated),
frame index n and the current iteration, advances frameNumber by exactly 1 to n + 1
(still at most numFrames), and marks that slot, and no other, decoded: the slot was free
before and is ready afterwards, every other slot is untouched, and the single
`VideoFrame::decode` call of the trace is on that slot. -/
theorem decodeNextFrame_publishes_frame {F : Type} (d : Decls) (O : FloatOps F)
    (c : VideoClip F) (r : DecodeResp) (n slot : Nat) (q : List (VideoFrame F))
    (img : VpxImage) (hn : (n : Int) < c.numFrames) (hf : c.frameNumber = n)
    (hs : requestEmptyFrame c.frameQueue = some (slot, q)) (hr : r.readFrame = 0)
    (hi : r.image = some img) :
    (c.decodeNextFrame d O r).ret = true ∧
    (c.decodeNextFrame d O r).clip.frameNumber = n + 1 ∧
    (((c.decodeNextFrame d O r).clip.frameNumber : Int) ≤ c.numFrames) ∧
    (∃ f0, c.frameQueue[slot]? = some f0 ∧ f0.status = SlotStatus.empty) ∧
    (c.decodeNextFrame d O r).clip.frameQueue[slot]? =
      some { timeToDisplay := O.div (O.ofInt n) c.fps, iteration := c.iteration,
             frameNumber := n, pixels := some (PixelTransform.ofImage img),
             status := SlotStatus.ready } ∧
    (∀ j, j ≠ slot → (c.decodeNextFrame d O r).clip.frameQueue[j]? = c.frameQueue[j]?) ∧
    (c.decodeNextFrame d O r).clip.frameQueue.length = c.frameQueue.length ∧
    (c.decodeNextFrame d O r).trace =
      [Event.requestEmptyFrame, Event.webm_read_frame] ++ decodeStepTrace r ++
        [Event.vpx_codec_get_frame, Event.frameDecode slot (PixelTransform.ofImage img)] := by
  obtain ⟨h1, rfl⟩ := requestEmptyFrame_some _ _ _ hs
  obtain ⟨f0, hf0, hs0⟩ := findEmpty_some _ _ h1
  refine ⟨?_, ?_, ?_, ⟨f0, hf0, hs0⟩, ?_, ?_, ?_, ?_⟩
  · simp [VideoClip.decodeNextFrame, VideoClip.decodeNextFrameLocals, hs, hr, hi]
  · simp [VideoClip.decodeNextFrame, VideoClip.decodeNextFrameLocals, hs, hr, hi, hf]
  · simp [VideoClip.decodeNextFrame, VideoClip.decodeNextFrameLocals, hs, hr, hi, hf]
    omega
  · simp [VideoClip.decodeNextFrame, VideoClip.decodeNextFrameLocals, hs, hr, hi, hf,
      getElem?_modifySlot, hf0, VideoFrame.decode]
  · intro j hj
    simp [VideoClip.decodeNextFrame, VideoClip.decodeNextFrameLocals, hs, hr, hi,
      getElem?_modifySlot, hj]
  · simp [VideoClip.decodeNextFrame, VideoClip.decodeNextFrameLocals, hs, hr, hi,
      length_modifySlot]
  · simp [VideoClip.decodeNextFrame, VideoClip.decodeNextFrameLocals, hs, hr, hi]

/-- Witness for C2: frame 7 of a 90-frame, 30 fps clip whose first slot is taken; the
second slot receives timeToDisplay 7/30. -/
theorem decodeNextFrame_publishes_frame_witness :
    ((7 : Nat) : Int) < (demoClip [readySlot, freeSlot] false 7 7 0 90).numFrames ∧
    ((demoClip [readySlot, freeSlot] false 7 7 0 90).decodeNextFrame lp64 ratOps
        respImage).clip.frameNumber = 7 + 1 ∧
    ((demoClip [readySlot, freeSlot] false 7 7 0 90).decodeNextFrame lp64 ratOps
        respImage).clip.frameQueue[1]? =
      some { timeToDisplay := (7 : ℚ) / 30, iteration := 0, frameNumber := 7,
             pixels := some (PixelTransform.ofImage demoImage),
             status := SlotStatus.ready } :=
  have h := decodeNextFrame_publishes_frame lp64 ratOps
    (demoClip [readySlot, freeSlot] false 7 7 0 90) respImage 7 1
    [readySlot, { freeSlot with status := SlotStatus.claimed }] demoImage
    (by decide) rfl (by decide) rfl rfl
  ⟨by decide, h.2.1, by simpa [ratOps, demoClip] using h.2.2.2.2.1⟩

/-- C9: with a free slot available, a failed packet read (`webm_read_frame` returning
nonzero: end of stream or I/O error) still makes `decodeNextFrame` return true; the
decoder is not called, no slot is marked decoded (the borrowed slot is the only change
to the clip), and `frameNumber` and `lastDecodedFrameNumber` keep their values. -/
theorem decodeNextFrame_read_failure {F : Type} (d : Decls) (O : FloatOps F)
    (c : VideoClip F) (r : DecodeResp) (slot : Nat) (q : List (VideoFrame F))
    (hs : requestEmptyFrame c.frameQueue = some (slot, q)) (hr : r.readFrame ≠ 0) :
    (c.decodeNextFrame d O r).ret = true ∧
    (c.decodeNextFrame d O r).trace = [Event.requestEmptyFrame, Event.webm_read_frame] ∧
    Event.vpx_codec_decode ∉ (c.decodeNextFrame d O r).trace ∧
    Event.vpx_codec_get_frame ∉ (c.decodeNextFrame d O r).trace ∧
    (∀ s t, Event.frameDecode s t ∉ (c.decodeNextFrame d O r).trace) ∧
    (c.decodeNextFrame d O r).clip = { c with frameQueue := q } ∧
    readySlots (c.decodeNextFrame d O r).clip.frameQueue = readySlots c.frameQueue ∧
    (c.decodeNextFrame d O r).clip.frameNumber = c.frameNumber ∧
    (c.decodeNextFrame d O r).clip.lastDecodedFrameNumber = c.lastDecodedFrameNumber := by
  have hq := readySlots_claim _ _ _ hs
  simp [VideoClip.decodeNextFrame, VideoClip.decodeNextFrameLocals, hs, hr, hq]

/-- Witness for C9: end of stream on a clip with one free slot. -/
theorem decodeNextFrame_read_failure_witness :
    requestEmptyFrame (demoClip [freeSlot] false 90 90 0 90).frameQueue =
      some (0, [{ freeSlot with status := SlotStatus.claimed }]) ∧
    respReadFails.readFrame ≠ 0 ∧
    ((demoClip [freeSlot] false 90 90 0 90).decodeNextFrame lp64 ratOps respReadFails).ret
      = true ∧
    ((demoClip [freeSlot] false 90 90 0 90).decodeNextFrame lp64 ratOps
      respReadFails).clip.frameNumber = 90 :=
  have h := decodeNextFrame_read_failure lp64 ratOps (demoClip [freeSlot] false 90 90 0 90)
    respReadFails 0 [{ freeSlot with status := SlotStatus.claimed }] (by decide) (by decide)
  ⟨by decide, by decide, h.1, h.2.2.2.2.2.2.2.1⟩

/-- C10, as stated, fails: the decode step reports an error without detail, the output
iterator still yields an image, and the call stamps the slot, marks it ready and
advances `frameNumber`. -/
theorem decodeNextFrame_error_still_publishes :
    respErrorImage.decode ≠ 0 ∧ respErrorImage.detail = none ∧
    ¬ (((demoClip [freeSlot] false 3 3 0 90).decodeNextFrame lp64 ratOps
          respErrorImage).clip.frameNumber = 3 ∧
       readySlots ((demoClip [freeSlot] false 3 3 0 90).decodeNextFrame lp64 ratOps
          respErrorImage).clip.frameQueue = readySlots [freeSlot]) := by
  decide

/-- C10 (amended): when the decode step reports an error (`vpx_codec_decode` returns
nonzero) and `vpx_codec_error_detail` returns NULL, the call returns true and logs
nothing; if the output iterator then yields no image, no frame is marked ready: the
borrowed slot is the only change to the clip, so no slot is stamped or marked decoded
and `frameNumber` is not advanced. If the iterator does yield an image, the frame is
published as after a successful decode. -/
theorem decodeNextFrame_decode_error_no_detail {F : Type} (d : Decls) (O : FloatOps F)
    (c : VideoClip F) (r : DecodeResp) (slot : Nat) (q : List (VideoFrame F))
    (hs : requestEmptyFrame c.frameQueue = some (slot, q)) (hr : r.readFrame = 0)
    (he : r.decode ≠ 0) (hd : r.detail = none) :
    (c.decodeNextFrame d O r).ret = true ∧
    (∀ msg, Event.log msg ∉ (c.decodeNextFrame d O r).trace) ∧
    (r.image = none →
      (c.decodeNextFrame d O r).trace =
        [Event.requestEmptyFrame, Event.webm_read_frame, Event.vpx_codec_decode,
         Event.vpx_codec_error_detail, Event.vpx_codec_get_frame] ∧
      (c.decodeNextFrame d O r).clip = { c with frameQueue := q } ∧
      readySlots (c.decodeNextFrame d O r).clip.frameQueue = readySlots c.frameQueue ∧
      (c.decodeNextFrame d O r).clip.frameNumber = c.frameNumber ∧
      (c.decodeNextFrame d O r).clip.lastDecodedFrameNumber = c.lastDecodedFrameNumber) ∧
    (∀ img, r.image = some img →
      (c.decodeNextFrame d O r).clip.frameNumber = c.frameNumber + 1 ∧
      ((c.decodeNextFrame d O r).clip.frameQueue[slot]?).map (fun f => f.status) =
        some SlotStatus.ready) := by
  have hq := readySlots_claim _ _ _ hs
  obtain ⟨h1, rfl⟩ := requestEmptyFrame_some _ _ _ hs
  obtain ⟨f0, hf0, hs0⟩ := findEmpty_some _ _ h1
  refine ⟨?_, ?_, ?_, ?_⟩
  · cases hi : r.image <;>
      simp [VideoClip.decodeNextFrame, VideoClip.decodeNextFrameLocals, hs, hr, hi]
  · intro msg
    cases hi : r.image <;>
      simp [VideoClip.decodeNextFrame, VideoClip.decodeNextFrameLocals, hs, hr, hi,
        decodeStepTrace, he, hd]
  · intro hi
    simp [VideoClip.decodeNextFrame, VideoClip.decodeNextFrameLocals, hs, hr, hi,
      decodeStepTrace, he, hd, hq]
  · intro img hi
    simp [VideoClip.decodeNextFrame, VideoClip.decodeNextFrameLocals, hs, hr, hi,
      getElem?_modifySlot, hf0, VideoFrame.decode]

/-- Witness for C10 (amended): a decode error without detail and without image. -/
theorem decodeNextFrame_decode_error_no_detail_witness :
    requestEmptyFrame (demoClip [freeSlot] false 3 3 0 90).frameQueue =
      some (0, [{ freeSlot with status := SlotStatus.claimed }]) ∧
    respErrorNoImage.readFrame = 0 ∧ respErrorNoImage.decode ≠ 0 ∧
    respErrorNoImage.detail = none ∧
    ((demoClip [freeSlot] false 3 3 0 90).decodeNextFrame lp64 ratOps
      respErrorNoImage).clip.frameNumber = 3 ∧
    readySlots ((demoClip [freeSlot] false 3 3 0 90).decodeNextFrame lp64 ratOps
      respErrorNoImage).clip.frameQueue = [false] :=
  have h := decodeNextFrame_decode_error_no_detail lp64 ratOps
    (demoClip [freeSlot] false 3 3 0 90) respErrorNoImage 0
    [{ freeSlot with status := SlotStatus.claimed }] (by decide) (by decide) (by decide)
    (by decide)
  ⟨by decide, by decide, by decide, by decide, (h.2.2.1 rfl).2.2.2.1, (h.2.2.1 rfl).2.2.1⟩

/-! ## _restart -/

theorem storeLast_of_fits (d : Decls) (v : Int)
    (h : d.lastUnsigned = true → 0 ≤ v ∧ v < 2 ^ d.ulongBits) : d.storeLast v = v := by
  unfold Decls.storeLast Decls.toULong
  by_cases hu : d.lastUnsigned = true
  · obtain ⟨h0, h1⟩ := h hu
    simp [hu, Int.emod_eq_of_lt h0 h1]
  · simp [hu]

/-- C5: `_restart` preserves the timer's running state: the timer after the call is
the timer before it (paused exactly when it was paused). A playing timer is paused
by lines 100-104, before the demuxer rewind and the counter reset of lines 105-110,
which run with the timer paused and do not touch it, and `play()` is issued after
them exactly when the timer was playing at entry. `_restart` also sets seekFrame to
0, endOfFile to false and restarted to true. -/
theorem restart_preserves_timer_state {F : Type} (d : Decls) (c : VideoClip F) :
    (c._restart d).clip.timer = c.timer ∧
    ((c._restart d).clip.timer.isPaused = true ↔ c.timer.isPaused = true) ∧
    (c._restart d).trace =
      (if c.timer.isPaused then [Event.timerIsPaused, Event.webm_rewind]
       else [Event.timerIsPaused, Event.timerPause, Event.webm_rewind, Event.timerPlay]) ∧
    c.restartPause.1 = c.timer.isPaused ∧
    c.restartPause.2.clip.timer.isPaused = true ∧
    c.restartPause.2.clip.frameNumber = c.frameNumber ∧
    c.restartPause.2.clip.lastDecodedFrameNumber = c.lastDecodedFrameNumber ∧
    c.restartPause.2.clip.seekFrame = c.seekFrame ∧
    (c.restartPause.2.clip.restartReset d).clip.timer = c.restartPause.2.clip.timer ∧
    (c.restartPause.2.clip.restartReset d).clip.frameNumber = 0 ∧
    (Event.timerPlay ∈ (c._restart d).trace ↔ c.timer.isPaused = false) ∧
    (Event.timerPause ∈ (c._restart d).trace ↔ c.timer.isPaused = false) ∧
    (c._restart d).clip.seekFrame = 0 ∧
    (c._restart d).clip.endOfFile = false ∧
    (c._restart d).clip.restarted = true := by
  obtain ⟨q, ⟨p, t⟩, fr, fn, l, sk, nf, fps, it, eof, rs⟩ := c
  cases p <;>
    simp [VideoClip._restart, VideoClip.restartPause, VideoClip.restartReset,
      VideoClip.restartResume, Timer.isPaused, Timer.pause, Timer.play]

/-- With the field declared `unsigned long` instead, line 107 would store the
maximum of the type: 2^64 - 1 on LP64. -/
theorem restart_last_if_unsigned :
    (lastFrameClip._restart lp64).clip.lastDecodedFrameNumber = 18446744073709551615 := by
  decide

/-- C4, as stated, fails in its last part: `doSeek` leaves -1 in seekFrame, while the
constructor and `_restart` leave 0 there. -/
theorem doSeek_sentinel_differs :
    (seekClip.doSeek lp64 ratOps).clip.seekFrame = -1 ∧
    (seekClip._restart lp64).clip.seekFrame = 0 ∧
    (VideoClip.create seekClip).seekFrame = 0 ∧
    ¬ ((seekClip.doSeek lp64 ratOps).clip.seekFrame = (seekClip._restart lp64).clip.seekFrame ∧
       (seekClip.doSeek lp64 ratOps).clip.seekFrame = (VideoClip.create seekClip).seekFrame) := by
  decide

/-- C4 (amended): with pending target seekFrame = k, a frame index that fits the type of
lastDecodedFrameNumber, `doSeek` first asks the timer to seek to k / fps, resets the
frame queue, sets lastDecodedFrameNumber to k, sets seekFrame to -1, leaves the timer
paused exactly when it was paused before the call (pausing a running timer around
the queue reset), and leaves frameNumber unchanged. The -1 it writes is not the value
the constructor and `_restart` write, which is 0. -/
theorem doSeek_effect {F : Type} (d : Decls) (O : FloatOps F) (c : VideoClip F) (k : Int)
    (hk : c.seekFrame = k) (hfit : d.lastUnsigned = true → 0 ≤ k ∧ k < 2 ^ d.ulongBits) :
    (c.doSeek d O).trace =
      (if c.timer.isPaused then
        [Event.timerSeek (O.div (O.ofInt k) c.fps), Event.timerIsPaused,
         Event.resetFrameQueue]
       else
        [Event.timerSeek (O.div (O.ofInt k) c.fps), Event.timerIsPaused, Event.timerPause,
         Event.resetFrameQueue, Event.timerPlay]) ∧
    (c.doSeek d O).clip.timer.time = O.div (O.ofInt k) c.fps ∧
    (c.doSeek d O).clip.frameQueue = resetQueue c.frameQueue ∧
    (∀ f, f ∈ (c.doSeek d O).clip.frameQueue → f.status = SlotStatus.empty) ∧
    (c.doSeek d O).clip.lastDecodedFrameNumber = k ∧
    (c.doSeek d O).clip.seekFrame = -1 ∧
    ((c.doSeek d O).clip.timer.isPaused = true ↔ c.timer.isPaused = true) ∧
    (c.doSeek d O).clip.frameNumber = c.frameNumber ∧
    (∀ base : VideoClip F, (VideoClip.create base).seekFrame = 0) ∧
    (∀ c2 : VideoClip F, (c2._restart d).clip.seekFrame = 0) := by
  have hl := storeLast_of_fits d k hfit
  subst hk
  refine ⟨?_, ?_, ?_, ?_, ?_, ?_, ?_, ?_, ?_, ?_⟩
  · cases hp : c.timer.paused <;>
      simp [VideoClip.doSeek, Timer.isPaused, Timer.seek, hp]
  · cases hp : c.timer.paused <;>
      simp [VideoClip.doSeek, Timer.isPaused, Timer.seek, Timer.pause, Timer.play,
        VideoClip.resetFrameQueue, hp]
  · cases hp : c.timer.paused <;>
      simp [VideoClip.doSeek, Timer.isPaused, Timer.seek, Timer.pause, Timer.play,
        VideoClip.resetFrameQueue, hp]
  · intro f hf
    have hq : (c.doSeek d O).clip.frameQueue = resetQueue c.frameQueue := by
      cases hp : c.timer.paused <;>
        simp [VideoClip.doSeek, Timer.isPaused, Timer.seek, Timer.pause, Timer.play,
          VideoClip.resetFrameQueue, hp]
    rw [hq] at hf
    simp only [resetQueue, List.mem_map] at hf
    obtain ⟨g, _, rfl⟩ := hf
    rfl
  · cases hp : c.timer.paused <;>
      simp [VideoClip.doSeek, Timer.isPaused, Timer.seek, Timer.pause, Timer.play,
        VideoClip.resetFrameQueue, hp, hl]
  · cases hp : c.timer.paused <;>
      simp [VideoClip.doSeek, Timer.isPaused, Timer.seek, Timer.pause, Timer.play,
        VideoClip.resetFrameQueue, hp]
  · cases hp : c.timer.paused <;>
      simp [VideoClip.doSeek, Timer.isPaused, Timer.seek, Timer.pause, Timer.play,
        VideoClip.resetFrameQueue, hp]
  · cases hp : c.timer.paused <;>
      simp [VideoClip.doSeek, Timer.isPaused, Timer.seek, Timer.pause, Timer.play,
        VideoClip.resetFrameQueue, hp]
  · intro base
    rfl
  · intro c2
    cases hp : c2.timer.paused <;>
      simp [VideoClip._restart, VideoClip.restartPause, VideoClip.restartReset,
        VideoClip.restartResume, Timer.isPaused, hp]

/-- Witness for C4 (amended): seekFrame = 45 on the playing 30 fps clip: the timer is
asked for 45/30 = 3/2 s, lastDecodedFrameNumber becomes 45, the timer keeps playing. -/
theorem doSeek_effect_witness :
    seekClip.seekFrame = 45 ∧
    ((0 : Int) ≤ 45 ∧ (45 : Int) < 2 ^ lp64.ulongBits) ∧
    (seekClip.doSeek lp64 ratOps).clip.timer.time = 3 / 2 ∧
    (seekClip.doSeek lp64 ratOps).clip.lastDecodedFrameNumber = 45 ∧
    (seekClip.doSeek lp64 ratOps).clip.seekFrame = -1 ∧
    (seekClip.doSeek lp64 ratOps).clip.timer.isPaused = false ∧
    (seekClip.doSeek lp64 ratOps).clip.frameNumber = 10 :=
  have h := doSeek_effect lp64 ratOps seekClip 45 rfl (fun _ => by decide)
  ⟨rfl, by decide,
   by rw [h.2.1]; norm_num [ratOps, seekClip, demoClip],
   h.2.2.2.2.1, h.2.2.2.2.2.1, by decide, h.2.2.2.2.2.2.2.1⟩

/-! ## lastDecodedFrameNumber along a run -/

theorem decodeNextFrame_counters {F : Type} (d : Decls) (O : FloatOps F) (c : VideoClip F)
    (r : DecodeResp) :
    ((c.decodeNextFrame d O r).clip.frameNumber = c.frameNumber ∧
      (c.decodeNextFrame d O r).clip.lastDecodedFrameNumber = c.lastDecodedFrameNumber) ∨
    ((c.decodeNextFrame d O r).clip.frameNumber = c.frameNumber + 1 ∧
      (c.decodeNextFrame d O r).clip.lastDecodedFrameNumber =
        d.storeLast ((c.frameNumber : Int) + 1)) := by
  unfold VideoClip.decodeNextFrame VideoClip.decodeNextFrameLocals
  cases hs : requestEmptyFrame c.frameQueue with
  | none => simp
  | some p =>
    obtain ⟨slot, q⟩ := p
    by_cases hr : r.readFrame = 0
    · cases hi : r.image <;> simp [hr]
    · simp [hr]

theorem lastDecodedHistory_head {F : Type} (d : Decls) (O : FloatOps F) (c : VideoClip F)
    (ks : List Call) :
    ∃ t, VideoClip.lastDecodedHistory d O c ks = c.lastDecodedFrameNumber :: t := by
  cases ks with
  | nil => exact ⟨[], rfl⟩
  | cons k ks => exact ⟨_, rfl⟩

/-- C6, as stated, fails: a `doSeek` to frame 10 made when lastDecodedFrameNumber is 50
lowers it to 10, whether the field is unsigned or signed; and after a seek to frame
45 the next published frame (index 10) lowers it from 45 to 11. -/
theorem lastDecoded_decreases :
    (demoClip [freeSlot] false 50 50 10 90).lastDecodedHistory lp64 ratOps [Call.doSeek]
      = [50, 10] ∧
    stepwiseLe ((demoClip [freeSlot] false 50 50 10 90).lastDecodedHistory lp64 ratOps
      [Call.doSeek]) = false ∧
    stepwiseLe ((demoClip [freeSlot] false 50 50 10 90).lastDecodedHistory lp64Signed ratOps
      [Call.doSeek]) = false ∧
    seekClip.lastDecodedHistory lp64 ratOps [Call.doSeek, Call.decodeNextFrame respImage]
      = [10, 45, 11] ∧
    stepwiseLe (seekClip.lastDecodedHistory lp64 ratOps
      [Call.doSeek, Call.decodeNextFrame respImage]) = false := by
  decide

/-- C6 (amended): across every sequence of `decodeNextFrame` calls with no `doSeek` and no
`_restart` among them, started with lastDecodedFrameNumber <= frameNumber + 1 (and
the counter staying in the range of the field), lastDecodedFrameNumber is
non-decreasing from call to call. A `doSeek` call overwrites it with seekFrame,
whatever its previous value. -/
theorem lastDecoded_nondecreasing_over_decodes {F : Type} (d : Decls) (O : FloatOps F)
    (c : VideoClip F) (rs : List DecodeResp)
    (h0 : c.lastDecodedFrameNumber ≤ (c.frameNumber : Int) + 1)
    (hfit : d.lastUnsigned = true →
      (c.frameNumber : Int) + (rs.length : Int) < 2 ^ d.ulongBits) :
    stepwiseLe (c.lastDecodedHistory d O (rs.map Call.decodeNextFrame)) = true ∧
    (∀ c2 : VideoClip F,
      (c2.doSeek d O).clip.lastDecodedFrameNumber = d.storeLast c2.seekFrame) := by
  constructor
  · induction rs generalizing c with
    | nil => simp [VideoClip.lastDecodedHistory, stepwiseLe]
    | cons r rs ih =>
      have hlen : ((r :: rs).length : Int) = (rs.length : Int) + 1 := by simp
      rw [hlen] at hfit
      have hstore : d.storeLast ((c.frameNumber : Int) + 1) = (c.frameNumber : Int) + 1 := by
        apply storeLast_of_fits
        intro hu
        have := hfit hu
        constructor <;> omega
      have hstep := decodeNextFrame_counters d O c r
      have h0n : (c.decodeNextFrame d O r).clip.lastDecodedFrameNumber ≤
          ((c.decodeNextFrame d O r).clip.frameNumber : Int) + 1 := by
        rcases hstep with ⟨h1, h2⟩ | ⟨h1, h2⟩
        · rw [h1, h2]; exact h0
        · rw [h1, h2, hstore]; push_cast; omega
      have hle : c.lastDecodedFrameNumber ≤
          (c.decodeNextFrame d O r).clip.lastDecodedFrameNumber := by
        rcases hstep with ⟨_, h2⟩ | ⟨_, h2⟩
        · rw [h2]
        · rw [h2, hstore]; exact h0
      have hfitn : d.lastUnsigned = true →
          ((c.decodeNextFrame d O r).clip.frameNumber : Int) + (rs.length : Int)
            < 2 ^ d.ulongBits := by
        intro hu
        have := hfit hu
        rcases hstep with ⟨h1, _⟩ | ⟨h1, _⟩
        · rw [h1]; omega
        · rw [h1]; push_cast; omega
      have ih2 := ih (c.decodeNextFrame d O r).clip h0n hfitn
      obtain ⟨t, ht⟩ := lastDecodedHistory_head d O (c.decodeNextFrame d O r).clip
        (rs.map Call.decodeNextFrame)
      simp only [List.map_cons, VideoClip.lastDecodedHistory, VideoClip.call]
      rw [ht] at ih2 ⊢
      simp [stepwiseLe, hle, ih2]
  · intro c2
    cases hp : c2.timer.paused <;>
      simp [VideoClip.doSeek, Timer.isPaused, Timer.seek, Timer.pause, Timer.play,
        VideoClip.resetFrameQueue, hp]

/-- Witness for C6 (amended): three calls on the 2-frame clip, the second with a failed
packet read: the history of lastDecodedFrameNumber is 0, 1, 1, 2. -/
theorem lastDecoded_nondecreasing_over_decodes_witness :
    twoFrameClip.lastDecodedFrameNumber ≤ (twoFrameClip.frameNumber : Int) + 1 ∧
    twoFrameClip.lastDecodedHistory lp64 ratOps
      ([respImage, respReadFails, respImage].map Call.decodeNextFrame) = [0, 1, 1, 2] ∧
    stepwiseLe (twoFrameClip.lastDecodedHistory lp64 ratOps
      ([respImage, respReadFails, respImage].map Call.decodeNextFrame)) = true :=
  ⟨by decide, by decide,
   (lastDecoded_nondecreasing_over_decodes lp64 ratOps twoFrameClip
      [respImage, respReadFails, respImage] (by decide) (fun _ => by decide)).1⟩

/-! ## The loop boundary -/

/-- C7 at its failing input: the constructed and loaded 2-frame clip satisfies
frameNumber <= numFrames, still does after two published frames, and a third
`decodeNextFrame` call whose decoder yields one more image takes frameNumber to 3,
above numFrames = 2, with no restart in between. -/
theorem frameNumber_exceeds_numFrames :
    twoFrameClip.numFrames = 2 ∧
    (twoFrameClip.frameNumber : Int) ≤ twoFrameClip.numFrames ∧
    (((twoFrameClip.run lp64 ratOps
        [Call.decodeNextFrame respImage, Call.decodeNextFrame respImage]).frameNumber : Int)
      ≤ twoFrameClip.numFrames) ∧
    (twoFrameClip.run lp64 ratOps
        [Call.decodeNextFrame respImage, Call.decodeNextFrame respImage,
         Call.decodeNextFrame respImage]).frameNumber = 3 ∧
    (twoFrameClip.run lp64 ratOps
        [Call.decodeNextFrame respImage, Call.decodeNextFrame respImage,
         Call.decodeNextFrame respImage]).numFrames = 2 ∧
    (twoFrameClip.run lp64 ratOps
        [Call.decodeNextFrame respImage, Call.decodeNextFrame respImage,
         Call.decodeNextFrame respImage]).restarted = false ∧
    ¬ (((twoFrameClip.run lp64 ratOps
        [Call.decodeNextFrame respImage, Call.decodeNextFrame respImage,
         Call.decodeNextFrame respImage]).frameNumber : Int) ≤ twoFrameClip.numFrames) := by
  decide

/-- C8 at its failing input: decoding frame 89 of the 90-frame clip makes
lastDecodedFrameNumber = 90 >= numFrames and raises the local `shouldRestart`, and the
next publishing call raises it again; but the local is dropped at `return true`: the
flags and the iteration are untouched, and for every clip and every answer of the
collaborators the value returned, the clip left behind and the external calls made
are the same whatever numFrames is. -/
theorem shouldRestart_is_discarded :
    (lastFrameClip.decodeNextFrameLocals lp64 ratOps respImage).2 = true ∧
    (lastFrameClip.decodeNextFrame lp64 ratOps respImage).clip.lastDecodedFrameNumber = 90 ∧
    (lastFrameClip.decodeNextFrame lp64 ratOps respImage).ret = true ∧
    (lastFrameClip.decodeNextFrame lp64 ratOps respImage).clip.restarted = false ∧
    (lastFrameClip.decodeNextFrame lp64 ratOps respImage).clip.endOfFile = false ∧
    (lastFrameClip.decodeNextFrame lp64 ratOps respImage).clip.iteration = 0 ∧
    (lastFrameClip.decodeNextFrame lp64 ratOps respImage).clip.frameNumber = 90 ∧
    ((lastFrameClip.decodeNextFrame lp64 ratOps respImage).clip.decodeNextFrameLocals
      lp64 ratOps respImage).2 = true ∧
    (∀ (F : Type) (d : Decls) (O : FloatOps F) (c : VideoClip F) (r : DecodeResp) (m : Int),
      (({ c with numFrames := m }).decodeNextFrame d O r).ret = (c.decodeNextFrame d O r).ret ∧
      (({ c with numFrames := m }).decodeNextFrame d O r).clip =
        { (c.decodeNextFrame d O r).clip with numFrames := m } ∧
      (({ c with numFrames := m }).decodeNextFrame d O r).trace =
        (c.decodeNextFrame d O r).trace) := by
  refine ⟨by decide, by decide, by decide, by decide, by decide, by decide, by decide,
    by decide, ?_⟩
  intro F d O c r m
  unfold VideoClip.decodeNextFrame VideoClip.decodeNextFrameLocals
  cases hs : requestEmptyFrame c.frameQueue with
  | none => simp
  | some p =>
    obtain ⟨slot, q⟩ := p
    by_cases hr : r.readFrame = 0
    · cases hi : r.image <;> simp [hr]
    · simp [hr]

end clipwebm
